import Mathlib

/-!
# Formal model of `passport-dropbox-oauth2`

A shallow embedding of `lib/passport-dropbox-oauth2/strategy.js`:

* the `Strategy` constructor (apiVersion validation, per-version default
  table, in-place completion of the caller's options bag, delegation to
  the external `OAuth2Strategy` base);
* `Strategy.prototype._retrieveUserProfile` (version dispatch producing
  the outbound profile request);
* `Strategy.prototype.userProfile` (transport-result handling, JSON
  parsing, and normalization into the profile record).

External collaborators (the HTTP transport inside the delegated oauth2
client, the platform `JSON.parse`, and the client's `buildAuthHeader`)
are modelled as explicit parameters, exactly as the spec treats them:
the transport is a function from the issued request to an error-or-body
result, `JSON.parse` is a function from the body string to an
error-or-JSON result, and `buildAuthHeader` is a function from the
access token to a header value.  JavaScript mutation of the options bag
is modelled by state passing: the constructor returns the post-mutation
contents of the caller's options object (which is also the very object
handed to the `OAuth2Strategy` base constructor).
-/

namespace DropboxOAuth2

/-- JavaScript values that may appear as fields of the options bag.
`undef` models an absent field (reading it yields `undefined`); `obj`
models a plain object used as a header map.  JavaScript numbers are
modelled as integers, which covers every value the claims exercise. -/
inductive JsVal where
  | undef : JsVal
  | null : JsVal
  | bool (b : Bool) : JsVal
  | num (n : Int) : JsVal
  | str (s : String) : JsVal
  | obj (fields : List (String × String)) : JsVal
  deriving Repr, DecidableEq

/-- JavaScript truthiness: `undefined`, `null`, `false`, `0` and `""`
are falsy; every object is truthy. -/
def jsTruthy : JsVal → Bool
  | .undef => false
  | .null => false
  | .bool b => b
  | .num n => n ≠ 0
  | .str s => s ≠ ""
  | .obj _ => true

/-- JavaScript `.toString()` / string coercion on the modelled values.
Integral numbers print their decimal digits; a plain object prints
`[object Object]`. -/
def jsToString : JsVal → String
  | .undef => "undefined"
  | .null => "null"
  | .bool b => if b then "true" else "false"
  | .num n => toString n
  | .str s => s
  | .obj _ => "[object Object]"

/-- JavaScript loose inequality `x != null`: true for every value except
`null` and `undefined`.  This is the guard the constructor uses to
decide whether `options.apiVersion` was supplied. -/
def jsLooseNeqNull : JsVal → Bool
  | .undef => false
  | .null => false
  | _ => true

/-- JSON values, the possible results of the platform `JSON.parse`. -/
inductive Json where
  | null : Json
  | bool (b : Bool) : Json
  | num (n : Int) : Json
  | str (s : String) : Json
  | arr (elems : List Json) : Json
  | obj (fields : List (String × Json)) : Json

/-- Association lookup in a JSON object's field list. -/
def Json.lookupField : List (String × Json) → String → Option Json
  | [], _ => none
  | (k, v) :: rest, key => if k = key then some v else Json.lookupField rest key

/-- JavaScript exceptions that can escape the `try` block of
`userProfile`: a `TypeError` from a property access on
`undefined`/`null`, or an exception thrown by `JSON.parse` on a
malformed body. -/
inductive JsErr where
  | typeError (msg : String) : JsErr
  | thrown (msg : String) : JsErr
  deriving Repr, DecidableEq

/-- JavaScript property access `v.key` where `v` is the result of a
previous access (`none` models `undefined`).  Reading a property of
`undefined` or `null` throws a `TypeError`; reading an unknown property
of any other value yields `undefined`. -/
def jsProp (v : Option Json) (key : String) : Except JsErr (Option Json) :=
  match v with
  | none => .error (.typeError ("Cannot read property " ++ key ++ " of undefined"))
  | some .null => .error (.typeError ("Cannot read property " ++ key ++ " of null"))
  | some (.obj fields) => .ok (Json.lookupField fields key)
  | some _ => .ok none

/-- The caller's options bag, restricted to the fields the strategy
constructor reads or writes (`lib/passport-dropbox-oauth2/strategy.js`,
`Strategy`).  Other fields (`clientID`, `clientSecret`, `callbackURL`,
the `verify` callback) are passed through untouched to the external
`OAuth2Strategy` base and play no role in any claim. -/
structure Options where
  apiVersion : JsVal := .undef
  authorizationURL : JsVal := .undef
  tokenURL : JsVal := .undef
  scopeSeparator : JsVal := .undef
  customHeaders : JsVal := .undef
  deriving Repr, DecidableEq

/-- One row of the constructor's `defaultOptionsByApiVersion` table. -/
structure VersionDefaults where
  authorizationURL : String
  tokenURL : String
  scopeSeparator : String
  customHeaders : List (String × String)
  deriving Repr, DecidableEq

/-- The `supportedApiVersions` list from the constructor. -/
def supportedApiVersions : List String := ["1", "2"]

/-- The constructor's per-version default table.  Its JavaScript keys
are the numbers `1` and `2`, which as object keys are the strings `"1"`
and `"2"`; indexing coerces the key to a string, so the table is keyed
by strings here.  An unknown key yields `undefined` (`none`). -/
def defaultOptionsByApiVersion (key : String) : Option VersionDefaults :=
  if key = "1" then
    some { authorizationURL := "https://www.dropbox.com/1/oauth2/authorize"
           tokenURL := "https://api.dropbox.com/1/oauth2/token"
           scopeSeparator := ","
           customHeaders := [] }
  else if key = "2" then
    some { authorizationURL := "https://www.dropbox.com/oauth2/authorize"
           tokenURL := "https://api.dropbox.com/oauth2/token"
           scopeSeparator := ","
           customHeaders := [("Content-Type", "application/json")] }
  else
    none

/-- The state of a constructed strategy: the stored `_apiVersion`
(whatever value `options.apiVersion || '1'` produced, not necessarily a
string) and the strategy `name`. -/
structure Strategy where
  _apiVersion : JsVal
  name : String
  deriving Repr, DecidableEq

/-- Result of a successful construction: the strategy state together
with the post-mutation contents of the caller's options object.  In the
JavaScript source the constructor assigns into `options` in place, so
`optionsAfter` is simultaneously what the caller's object now holds and
the object passed to `OAuth2Strategy.call(this, options, verify)`. -/
structure Construction where
  strategy : Strategy
  optionsAfter : Options
  deriving Repr, DecidableEq

/-- The `Strategy` constructor (`strategy.js` lines 44–80).  Throwing is
modelled by `Except.error` carrying the message.  Each `options.x =
options.x || default` assignment is modelled by the corresponding field
update of `optionsAfter`. -/
def Strategy.construct (options : Options) : Except String Construction :=
  if jsLooseNeqNull options.apiVersion
      && !(supportedApiVersions.contains (jsToString options.apiVersion)) then
    .error "Unsupported Dropbox API version. Supported versions are \"1\" and \"2\"."
  else
    let apiV := if jsTruthy options.apiVersion then options.apiVersion else .str "1"
    match defaultOptionsByApiVersion (jsToString apiV) with
    | none => .error "TypeError: defaultOptionsByApiVersion has no such key"
    | some d =>
      let optionsAfter : Options :=
        { options with
          authorizationURL :=
            if jsTruthy options.authorizationURL then options.authorizationURL
            else .str d.authorizationURL
          tokenURL :=
            if jsTruthy options.tokenURL then options.tokenURL
            else .str d.tokenURL
          scopeSeparator :=
            if jsTruthy options.scopeSeparator then options.scopeSeparator
            else .str d.scopeSeparator
          customHeaders :=
            if jsTruthy options.customHeaders then options.customHeaders
            else .obj d.customHeaders }
      .ok { strategy := { _apiVersion := apiV, name := "dropbox-oauth2" }
            optionsAfter := optionsAfter }

/-- The delegated oauth2 client, restricted to the capability
`_retrieveUserProfile` uses besides issuing requests: the bearer
auth-header builder `this._oauth2.buildAuthHeader`. -/
structure OAuth2Client where
  buildAuthHeader : String → String

/-- An outbound request as handed to the delegated oauth2 client:
either the token-authenticated GET primitive (`this._oauth2.get`) or
the low-level primitive (`this._oauth2._request`) with explicit method,
headers, body and token. -/
inductive Request where
  | get (url : String) (accessToken : String) : Request
  | request (method : String) (url : String) (headers : List (String × String))
      (body : String) (accessToken : String) : Request
  deriving Repr, DecidableEq

/-- Model of `Strategy.prototype._retrieveUserProfile` (`strategy.js` lines
94–103): dispatch on `this._apiVersion` with strict equality (`===`)
against the strings `'1'` and `'2'`.  The function's only effect is the
request it hands to the oauth2 client, so it is modelled as returning
that request; when neither branch matches, no request is issued
(`none`) and the supplied callback is never invoked. -/
def Strategy._retrieveUserProfile (client : OAuth2Client) (s : Strategy)
    (accessToken : String) : Option Request :=
  if s._apiVersion = .str "1" then
    some (.get "https://api.dropbox.com/1/account/info" accessToken)
  else if s._apiVersion = .str "2" then
    some (.request "POST" "https://api.dropboxapi.com/2/users/get_current_account"
      [("Authorization", client.buildAuthHeader accessToken)] "null" accessToken)
  else
    none

/-- The `name` sub-record of the normalized profile.  `familyName` and
`givenName` hold whatever JSON value the property access produced
(`none` models JavaScript `undefined`); `middleName` is assigned the
literal `''`. -/
structure ProfileName where
  familyName : Option Json
  givenName : Option Json
  middleName : String

/-- One entry of the `emails` array of the normalized profile. -/
structure EmailEntry where
  value : Option Json

/-- The normalized profile built by `userProfile`.  Fields that the
version branches may leave entirely unassigned are `Option`-valued with
`none` meaning the field is absent (`undefined`). -/
structure Profile where
  provider : String
  id : Option Json := none
  displayName : Option Json := none
  name : Option ProfileName := none
  emails : Option (List EmailEntry) := none
  _raw : String
  _json : Json

/-- The body of the `try` block of `userProfile` after `JSON.parse`
succeeded (`strategy.js` lines 126–152): branch on `this._apiVersion`
with strict equality, performing the JavaScript property accesses in
source order (a `TypeError` escaping an access is an `Except.error`),
then attach the raw body and parsed payload.  When neither branch
matches, the profile keeps only `provider`, `_raw` and `_json`. -/
def Strategy.buildProfile (s : Strategy) (json : Json) (body : String) :
    Except JsErr Profile :=
  if s._apiVersion = .str "1" then do
    let uid ← jsProp (some json) "uid"
    let dn ← jsProp (some json) "display_name"
    let nd1 ← jsProp (some json) "name_details"
    let fam ← jsProp nd1 "surname"
    let nd2 ← jsProp (some json) "name_details"
    let giv ← jsProp nd2 "given_name"
    let em ← jsProp (some json) "email"
    .ok { provider := "dropbox", id := uid, displayName := dn
          name := some { familyName := fam, givenName := giv, middleName := "" }
          emails := some [{ value := em }], _raw := body, _json := json }
  else if s._apiVersion = .str "2" then do
    let accId ← jsProp (some json) "account_id"
    let nm1 ← jsProp (some json) "name"
    let dn ← jsProp nm1 "display_name"
    let nm2 ← jsProp (some json) "name"
    let fam ← jsProp nm2 "surname"
    let nm3 ← jsProp (some json) "name"
    let giv ← jsProp nm3 "given_name"
    let em ← jsProp (some json) "email"
    .ok { provider := "dropbox", id := accId, displayName := dn
          name := some { familyName := fam, givenName := giv, middleName := "" }
          emails := some [{ value := em }], _raw := body, _json := json }
  else
    .ok { provider := "dropbox", _raw := body, _json := json }

/-- The error argument `userProfile` can pass to its completion
callback: a wrapped `InternalOAuthError` for transport failures, or the
raw JavaScript exception (parse error or `TypeError`) from the `try`
block, unwrapped. -/
inductive UPError where
  | internalOAuthError (msg : String) (cause : String) : UPError
  | jsException (e : JsErr) : UPError

/-- One invocation of the completion callback `done`. -/
inductive DoneCall where
  | failure (e : UPError)
  | success (p : Profile)

/-- The anonymous callback `userProfile` installs on the profile
request (`strategy.js` lines 120–156), applied to the transport's
error-or-body result; the list collects the invocations of `done` it
performs.  On a transport error it wraps the cause and returns; on a
body it runs `JSON.parse` and the version branches inside `try`,
passing any exception to `done` unwrapped.  The completion callback
itself is assumed not to throw. -/
def Strategy.userProfileCallback (s : Strategy)
    (parse : String → Except JsErr Json)
    (result : Except String String) : List DoneCall :=
  match result with
  | .error err => [.failure (.internalOAuthError "failed to fetch user profile" err)]
  | .ok body =>
    match (do
      let json ← parse body
      Strategy.buildProfile s json body : Except JsErr Profile) with
    | .error e => [.failure (.jsException e)]
    | .ok p => [.success p]

/-- Model of `Strategy.prototype.userProfile` end to end: issue the request
`_retrieveUserProfile` selects (if any), feed the transport's response
for it into the installed callback, and collect the invocations of
`done`.  The transport is the external HTTP layer, modelled as a
function from the issued request to an error-or-body result. -/
def Strategy.userProfile (s : Strategy) (client : OAuth2Client)
    (parse : String → Except JsErr Json)
    (transport : Request → Except String String)
    (accessToken : String) : List DoneCall :=
  match Strategy._retrieveUserProfile client s accessToken with
  | none => []
  | some req => Strategy.userProfileCallback s parse (transport req)

/-! ## Sample data used by the concrete claims -/

/-- The strategy state produced by constructing with `apiVersion: '1'`. -/
def strategyV1 : Strategy := { _apiVersion := .str "1", name := "dropbox-oauth2" }

/-- The strategy state produced by constructing with `apiVersion: '2'`. -/
def strategyV2 : Strategy := { _apiVersion := .str "2", name := "dropbox-oauth2" }

/-- The parsed form of the spec's v1 sample response body. -/
def sampleV1Json : Json :=
  .obj [("uid", .str "42"), ("display_name", .str "A B"),
        ("name_details", .obj [("surname", .str "B"), ("given_name", .str "A")]),
        ("email", .str "a@b.com")]

/-- The spec's v1 sample response body, as the raw string the transport
delivers. -/
def sampleV1Body : String :=
  "\x7b\"uid\":\"42\",\"display_name\":\"A B\",\"name_details\":\x7b\"surname\":\"B\",\"given_name\":\"A\"\x7d,\"email\":\"a@b.com\"\x7d"

/-- The parsed form of the spec's v2 sample response body. -/
def sampleV2Json : Json :=
  .obj [("account_id", .str "acc1"),
        ("name", .obj [("display_name", .str "A B"), ("surname", .str "B"),
                       ("given_name", .str "A")]),
        ("email", .str "a@b.com")]

/-- The spec's v2 sample response body, as the raw string the transport
delivers. -/
def sampleV2Body : String :=
  "\x7b\"account_id\":\"acc1\",\"name\":\x7b\"display_name\":\"A B\",\"surname\":\"B\",\"given_name\":\"A\"\x7d,\"email\":\"a@b.com\"\x7d"

/-- An all-default options bag: every field unset (`undefined`). -/
def emptyOptions : Options := {}

/-- The construction result for an all-default options bag. -/
def defaultConstruction : Construction :=
  { strategy := { _apiVersion := .str "1", name := "dropbox-oauth2" }
    optionsAfter :=
      { apiVersion := .undef
        authorizationURL := .str "https://www.dropbox.com/1/oauth2/authorize"
        tokenURL := .str "https://api.dropbox.com/1/oauth2/token"
        scopeSeparator := .str ","
        customHeaders := .obj [] } }

/-! ## General helper lemmas -/

/-- Unfolding lemma for bind in the `Except` monad. -/
theorem except_bind_ok {ε α β : Type} (x : Except ε α) (f : α → Except ε β) (b : β) :
    (x >>= f = Except.ok b) ↔ ∃ a, x = Except.ok a ∧ f a = Except.ok b := by
  cases x with
  | error e => simp [Bind.bind, Except.bind]
  | ok a => simp [Bind.bind, Except.bind]

/-- A successful run of `userProfile` decomposes into a request selected
by `_retrieveUserProfile`, a body from the transport, a parse success,
and a successful profile build. -/
theorem userProfile_success_decomp (s : Strategy) (client : OAuth2Client)
    (parse : String → Except JsErr Json) (transport : Request → Except String String)
    (accessToken : String) (p : Profile)
    (h : s.userProfile client parse transport accessToken = [.success p]) :
    ∃ req body json,
      Strategy._retrieveUserProfile client s accessToken = some req ∧
      transport req = .ok body ∧ parse body = .ok json ∧
      s.buildProfile json body = .ok p := by
  unfold Strategy.userProfile at h
  rcases hreq : Strategy._retrieveUserProfile client s accessToken with _ | req
  · rw [hreq] at h
    exact absurd h (by simp)
  · rw [hreq] at h
    dsimp only at h
    rcases hres : transport req with e | body
    · rw [hres] at h
      unfold Strategy.userProfileCallback at h
      injection h with h1 _
      exact DoneCall.noConfusion h1
    · rw [hres] at h
      unfold Strategy.userProfileCallback at h
      dsimp only at h
      rcases hpj : parse body with pe | json
      · rw [hpj] at h
        simp only [Bind.bind, Except.bind] at h
        injection h with h1 _
        exact DoneCall.noConfusion h1
      · rw [hpj] at h
        simp only [Bind.bind, Except.bind] at h
        rcases hb : s.buildProfile json body with e | q
        · rw [hb] at h
          injection h with h1 _
          exact DoneCall.noConfusion h1
        · rw [hb] at h
          injection h with h1 _
          injection h1 with h2
          exact ⟨req, body, json, rfl, hres, hpj, by rw [hb, h2]⟩

/-! ## Claims -/

/-- C5: with `apiVersion` unset and no endpoint, separator, or header
overrides, the constructor resolves exactly the v1 default table:
authorization URL `https://www.dropbox.com/1/oauth2/authorize`, token
URL `https://api.dropbox.com/1/oauth2/token`, scope separator `","`,
and an empty custom-header map. -/
theorem construct_unset_apiVersion_resolves_v1_defaults :
    Strategy.construct emptyOptions =
      .ok { strategy := { _apiVersion := .str "1", name := "dropbox-oauth2" }
            optionsAfter :=
              { apiVersion := .undef
                authorizationURL := .str "https://www.dropbox.com/1/oauth2/authorize"
                tokenURL := .str "https://api.dropbox.com/1/oauth2/token"
                scopeSeparator := .str ","
                customHeaders := .obj [] } } := by
  rfl

/-- C2, counterexample: the options bag `{ apiVersion: null }` has its
`apiVersion` field supplied (it is not absent/`undefined`) and its
string coercion `"null"` is neither `"1"` nor `"2"`, yet the
constructor does not fail: the loose guard `options.apiVersion != null`
treats `null` as unsupplied, so construction succeeds with the v1
defaults. -/
theorem construct_null_apiVersion_accepted :
    JsVal.null ≠ JsVal.undef ∧
    jsToString JsVal.null ∉ supportedApiVersions ∧
    Strategy.construct { apiVersion := JsVal.null } =
      .ok { strategy := { _apiVersion := .str "1", name := "dropbox-oauth2" }
            optionsAfter :=
              { apiVersion := JsVal.null
                authorizationURL := .str "https://www.dropbox.com/1/oauth2/authorize"
                tokenURL := .str "https://api.dropbox.com/1/oauth2/token"
                scopeSeparator := .str ","
                customHeaders := .obj [] } } := by
  refine ⟨by decide, by decide, by rfl⟩

/-- C2, amended: for every options bag whose `apiVersion` field is
supplied with a value that is neither `null` nor `undefined` (the
constructor's `!= null` guard) and whose string coercion is neither
`"1"` nor `"2"`, construction fails synchronously with the
configuration error; no `Construction` (and hence no strategy able to
issue a request) exists. -/
theorem construct_rejects_unsupported_apiVersion (opts : Options)
    (h1 : jsLooseNeqNull opts.apiVersion = true)
    (h2 : supportedApiVersions.contains (jsToString opts.apiVersion) = false) :
    Strategy.construct opts =
      .error "Unsupported Dropbox API version. Supported versions are \"1\" and \"2\"." := by
  unfold Strategy.construct
  rw [h1, h2]
  rfl

/-- Witness for C2's amended theorem at the concrete unsupported
version string `"3"`. -/
theorem construct_rejects_unsupported_apiVersion_witness :
    jsLooseNeqNull (JsVal.str "3") = true ∧
    supportedApiVersions.contains (jsToString (JsVal.str "3")) = false ∧
    Strategy.construct { apiVersion := JsVal.str "3" } =
      .error "Unsupported Dropbox API version. Supported versions are \"1\" and \"2\"." :=
  ⟨rfl, by decide,
    construct_rejects_unsupported_apiVersion { apiVersion := JsVal.str "3" } rfl (by decide)⟩

/-- C1, exhibit of the code bug: the options bag `{ apiVersion: 2 }`
(the number) is accepted by the constructor (its string coercion `"2"`
is supported), but the stored `_apiVersion` is the number `2`, which
`_retrieveUserProfile` strict-compares (`===`) against the strings
`'1'` and `'2'`; neither branch matches, no request is issued, and the
completion callback is never invoked — zero invocations instead of
exactly one, for every client, parser, transport and access token. -/
theorem construct_accepts_numeric_two_but_callback_never_invoked
    (client : OAuth2Client) (parse : String → Except JsErr Json)
    (transport : Request → Except String String) (accessToken : String) :
    ∃ c, Strategy.construct { apiVersion := JsVal.num 2 } = .ok c ∧
      c.strategy._apiVersion = JsVal.num 2 ∧
      Strategy._retrieveUserProfile client c.strategy accessToken = none ∧
      c.strategy.userProfile client parse transport accessToken = [] := by
  exact ⟨_, rfl, rfl, rfl, rfl⟩

/-- C6: for apiVersion `'2'` and every access token, the profile
request is a POST to
`https://api.dropboxapi.com/2/users/get_current_account` whose body is
exactly the 4-character string `"null"` and whose headers carry an
`Authorization` header built by the delegated client's
`buildAuthHeader` from the access token. -/
theorem retrieveUserProfile_v2_request (client : OAuth2Client) (accessToken : String) :
    (Strategy.construct { apiVersion := JsVal.str "2" }).map Construction.strategy =
      .ok strategyV2 ∧
    Strategy._retrieveUserProfile client strategyV2 accessToken =
      some (.request "POST" "https://api.dropboxapi.com/2/users/get_current_account"
        [("Authorization", client.buildAuthHeader accessToken)] "null" accessToken) ∧
    ("null" : String).length = 4 :=
  ⟨rfl, rfl, rfl⟩

/-- C3: for apiVersion `'1'`, when the transport succeeds with a body
that parses to the sample v1 payload, `userProfile` invokes the
callback once with no error and the profile
`{provider: "dropbox", id: "42", displayName: "A B",
name: {familyName: "B", givenName: "A", middleName: ""},
emails: [{value: "a@b.com"}]}`, with the raw body and the parsed
payload attached. -/
theorem userProfile_v1_sample (client : OAuth2Client)
    (parse : String → Except JsErr Json) (accessToken body : String)
    (h : parse body = .ok sampleV1Json) :
    (Strategy.construct { apiVersion := JsVal.str "1" }).map Construction.strategy =
      .ok strategyV1 ∧
    strategyV1.userProfile client parse (fun _ => .ok body) accessToken =
      [.success
        { provider := "dropbox"
          id := some (.str "42")
          displayName := some (.str "A B")
          name := some { familyName := some (.str "B"), givenName := some (.str "A")
                         middleName := "" }
          emails := some [{ value := some (.str "a@b.com") }]
          _raw := body
          _json := sampleV1Json }] := by
  refine ⟨rfl, ?_⟩
  unfold Strategy.userProfile Strategy._retrieveUserProfile Strategy.userProfileCallback
  dsimp only [strategyV1]
  rw [h]
  rfl

/-- Witness for C3 at the literal v1 sample body, a parse function
mapping it to the sample payload, and a bearer-header client. -/
theorem userProfile_v1_sample_witness :
    (fun _ => Except.ok sampleV1Json : String → Except JsErr Json) sampleV1Body =
      .ok sampleV1Json ∧
    strategyV1.userProfile { buildAuthHeader := fun t => "Bearer " ++ t }
        (fun _ => .ok sampleV1Json) (fun _ => .ok sampleV1Body) "token" =
      [.success
        { provider := "dropbox"
          id := some (.str "42")
          displayName := some (.str "A B")
          name := some { familyName := some (.str "B"), givenName := some (.str "A")
                         middleName := "" }
          emails := some [{ value := some (.str "a@b.com") }]
          _raw := sampleV1Body
          _json := sampleV1Json }] :=
  ⟨rfl,
    (userProfile_v1_sample { buildAuthHeader := fun t => "Bearer " ++ t }
      (fun _ => .ok sampleV1Json) "token" sampleV1Body rfl).2⟩

/-- C4: for apiVersion `'2'`, when the transport succeeds with a body
that parses to the sample v2 payload, the normalized profile passed to
the callback has id `"acc1"`, displayName `"A B"`, name
`{familyName: "B", givenName: "A", middleName: ""}`, and emails
`[{value: "a@b.com"}]`. -/
theorem userProfile_v2_sample (client : OAuth2Client)
    (parse : String → Except JsErr Json) (accessToken body : String)
    (h : parse body = .ok sampleV2Json) :
    (Strategy.construct { apiVersion := JsVal.str "2" }).map Construction.strategy =
      .ok strategyV2 ∧
    strategyV2.userProfile client parse (fun _ => .ok body) accessToken =
      [.success
        { provider := "dropbox"
          id := some (.str "acc1")
          displayName := some (.str "A B")
          name := some { familyName := some (.str "B"), givenName := some (.str "A")
                         middleName := "" }
          emails := some [{ value := some (.str "a@b.com") }]
          _raw := body
          _json := sampleV2Json }] := by
  refine ⟨rfl, ?_⟩
  unfold Strategy.userProfile Strategy._retrieveUserProfile Strategy.userProfileCallback
  dsimp only [strategyV2]
  rw [h]
  rfl

/-- Witness for C4 at the literal v2 sample body, a parse function
mapping it to the sample payload, and a bearer-header client. -/
theorem userProfile_v2_sample_witness :
    (fun _ => Except.ok sampleV2Json : String → Except JsErr Json) sampleV2Body =
      .ok sampleV2Json ∧
    strategyV2.userProfile { buildAuthHeader := fun t => "Bearer " ++ t }
        (fun _ => .ok sampleV2Json) (fun _ => .ok sampleV2Body) "token" =
      [.success
        { provider := "dropbox"
          id := some (.str "acc1")
          displayName := some (.str "A B")
          name := some { familyName := some (.str "B"), givenName := some (.str "A")
                         middleName := "" }
          emails := some [{ value := some (.str "a@b.com") }]
          _raw := sampleV2Body
          _json := sampleV2Json }] :=
  ⟨rfl,
    (userProfile_v2_sample { buildAuthHeader := fun t => "Bearer " ++ t }
      (fun _ => .ok sampleV2Json) "token" sampleV2Body rfl).2⟩

/-- C7: for either supported version and every access token, (a) a
transport error makes the callback receive the wrapped error with
message `"failed to fetch user profile"` carrying the underlying cause;
(b) the outcome on a transport error is the same for every parse
function, i.e. the body is never parsed; (c) a body the parse function
rejects makes the callback receive the raw parse exception, unwrapped;
(d) the wrapped transport error and the raw exception are distinct
kinds. -/
theorem userProfile_error_kinds (v : JsVal) (client : OAuth2Client)
    (parse : String → Except JsErr Json) (accessToken : String)
    (e : String) (body : String) (pe : JsErr)
    (hv : v = JsVal.str "1" ∨ v = JsVal.str "2")
    (hp : parse body = .error pe) :
    (({ _apiVersion := v, name := "dropbox-oauth2" } : Strategy).userProfile client parse
        (fun _ => .error e) accessToken =
      [.failure (.internalOAuthError "failed to fetch user profile" e)]) ∧
    (∀ parse2 : String → Except JsErr Json,
      ({ _apiVersion := v, name := "dropbox-oauth2" } : Strategy).userProfile client parse
          (fun _ => .error e) accessToken =
        ({ _apiVersion := v, name := "dropbox-oauth2" } : Strategy).userProfile client parse2
          (fun _ => .error e) accessToken) ∧
    (({ _apiVersion := v, name := "dropbox-oauth2" } : Strategy).userProfile client parse
        (fun _ => .ok body) accessToken =
      [.failure (.jsException pe)]) ∧
    (∀ (m c : String) (q : JsErr),
      UPError.internalOAuthError m c ≠ UPError.jsException q) := by
  rcases hv with rfl | rfl <;>
    refine ⟨rfl, fun parse2 => rfl, ?_, fun m c q hne => UPError.noConfusion hne⟩ <;>
    · unfold Strategy.userProfile Strategy._retrieveUserProfile Strategy.userProfileCallback
      dsimp only
      rw [hp]
      rfl

/-- Witness for C7 at version `'1'`, a transport error `"ECONNREFUSED"`,
and a parse function rejecting the body `"not json"`. -/
theorem userProfile_error_kinds_witness :
    (({ _apiVersion := JsVal.str "1", name := "dropbox-oauth2" } : Strategy).userProfile
        { buildAuthHeader := fun t => "Bearer " ++ t }
        (fun _ => .error (.thrown "Unexpected token")) (fun _ => .error "ECONNREFUSED")
        "token" =
      [.failure (.internalOAuthError "failed to fetch user profile" "ECONNREFUSED")]) ∧
    (∀ parse2 : String → Except JsErr Json,
      ({ _apiVersion := JsVal.str "1", name := "dropbox-oauth2" } : Strategy).userProfile
          { buildAuthHeader := fun t => "Bearer " ++ t }
          (fun _ => .error (.thrown "Unexpected token")) (fun _ => .error "ECONNREFUSED")
          "token" =
        ({ _apiVersion := JsVal.str "1", name := "dropbox-oauth2" } : Strategy).userProfile
          { buildAuthHeader := fun t => "Bearer " ++ t } parse2
          (fun _ => .error "ECONNREFUSED") "token") ∧
    (({ _apiVersion := JsVal.str "1", name := "dropbox-oauth2" } : Strategy).userProfile
        { buildAuthHeader := fun t => "Bearer " ++ t }
        (fun _ => .error (.thrown "Unexpected token")) (fun _ => .ok "not json") "token" =
      [.failure (.jsException (.thrown "Unexpected token"))]) ∧
    (∀ (m c : String) (q : JsErr),
      UPError.internalOAuthError m c ≠ UPError.jsException q) :=
  userProfile_error_kinds (JsVal.str "1") { buildAuthHeader := fun t => "Bearer " ++ t }
    (fun _ => .error (.thrown "Unexpected token")) "token" "ECONNREFUSED" "not json"
    (.thrown "Unexpected token") (Or.inl rfl) rfl

/-- C9: the profile fetch is deterministic — two runs with the same
token against the same transport and parse behaviour that both succeed
yield structurally equal profiles. -/
theorem userProfile_idempotent (s : Strategy) (client : OAuth2Client)
    (parse : String → Except JsErr Json) (transport : Request → Except String String)
    (accessToken : String) (p q : Profile)
    (h1 : s.userProfile client parse transport accessToken = [.success p])
    (h2 : s.userProfile client parse transport accessToken = [.success q]) :
    p = q := by
  rw [h1] at h2
  injection h2 with h3 _
  injection h3

/-- Witness for C9: two identical successful v1 sample runs produce the
same profile. -/
theorem userProfile_idempotent_witness :
    ({ provider := "dropbox"
       id := some (.str "42")
       displayName := some (.str "A B")
       name := some { familyName := some (.str "B"), givenName := some (.str "A")
                      middleName := "" }
       emails := some [{ value := some (.str "a@b.com") }]
       _raw := sampleV1Body
       _json := sampleV1Json } : Profile) =
    { provider := "dropbox"
      id := some (.str "42")
      displayName := some (.str "A B")
      name := some { familyName := some (.str "B"), givenName := some (.str "A")
                     middleName := "" }
      emails := some [{ value := some (.str "a@b.com") }]
      _raw := sampleV1Body
      _json := sampleV1Json } :=
  userProfile_idempotent strategyV1 { buildAuthHeader := fun t => "Bearer " ++ t }
    (fun _ => .ok sampleV1Json) (fun _ => .ok sampleV1Body) "token" _ _ rfl rfl

/-- Helper: any profile a supported version branch builds successfully
has provider `"dropbox"`, carries the parsed payload, a name record
with empty `middleName`, and a one-element email list whose value is
the payload's `email` property. -/
theorem buildProfile_ok_invariants (s : Strategy) (json : Json) (body : String) (p : Profile)
    (hv : s._apiVersion = JsVal.str "1" ∨ s._apiVersion = JsVal.str "2")
    (h : s.buildProfile json body = .ok p) :
    p.provider = "dropbox" ∧ p._json = json ∧
    (∃ nm, p.name = some nm ∧ nm.middleName = "") ∧
    (∃ em, p.emails = some [{ value := em }] ∧ jsProp (some json) "email" = .ok em) := by
  rcases hv with hv | hv
  · unfold Strategy.buildProfile at h
    rw [hv, if_pos rfl] at h
    simp only [except_bind_ok, Except.ok.injEq] at h
    obtain ⟨a1, h1, a2, h2, a3, h3, a4, h4, a5, h5, a6, h6, em, hem, hrec⟩ := h
    subst hrec
    exact ⟨rfl, rfl, ⟨_, rfl, rfl⟩, ⟨em, rfl, hem⟩⟩
  · unfold Strategy.buildProfile at h
    rw [hv, if_neg (by decide), if_pos rfl] at h
    simp only [except_bind_ok, Except.ok.injEq] at h
    obtain ⟨a1, h1, a2, h2, a3, h3, a4, h4, a5, h5, a6, h6, a7, h7, em, hem, hrec⟩ := h
    subst hrec
    exact ⟨rfl, rfl, ⟨_, rfl, rfl⟩, ⟨em, rfl, hem⟩⟩

/-- C8: for either supported version, every successful callback
invocation delivers a profile whose provider is the literal
`"dropbox"`, whose `name.middleName` is the empty string, and whose
`emails` is the one-element sequence holding exactly the `email`
property extracted from the attached parsed payload. -/
theorem userProfile_success_invariants (v : JsVal) (client : OAuth2Client)
    (parse : String → Except JsErr Json) (transport : Request → Except String String)
    (accessToken : String) (p : Profile)
    (hv : v = JsVal.str "1" ∨ v = JsVal.str "2")
    (h : ({ _apiVersion := v, name := "dropbox-oauth2" } : Strategy).userProfile client parse
        transport accessToken = [.success p]) :
    p.provider = "dropbox" ∧
    (∃ nm, p.name = some nm ∧ nm.middleName = "") ∧
    (∃ em, p.emails = some [{ value := em }] ∧ jsProp (some p._json) "email" = .ok em) := by
  obtain ⟨req, body, json, hreq, hres, hpj, hb⟩ := userProfile_success_decomp _ _ _ _ _ _ h
  obtain ⟨hprov, hjson, hname, hemail⟩ := buildProfile_ok_invariants _ _ _ _ hv hb
  exact ⟨hprov, hname, by rw [hjson]; exact hemail⟩

/-- Witness for C8 at the concrete v1 sample run. -/
theorem userProfile_success_invariants_witness :
    ({ provider := "dropbox"
       id := some (.str "42")
       displayName := some (.str "A B")
       name := some { familyName := some (.str "B"), givenName := some (.str "A")
                      middleName := "" }
       emails := some [{ value := some (.str "a@b.com") }]
       _raw := sampleV1Body
       _json := sampleV1Json } : Profile).provider = "dropbox" ∧
    (∃ nm, ({ provider := "dropbox"
              id := some (.str "42")
              displayName := some (.str "A B")
              name := some { familyName := some (.str "B"), givenName := some (.str "A")
                             middleName := "" }
              emails := some [{ value := some (.str "a@b.com") }]
              _raw := sampleV1Body
              _json := sampleV1Json } : Profile).name = some nm ∧ nm.middleName = "") ∧
    (∃ em, ({ provider := "dropbox"
              id := some (.str "42")
              displayName := some (.str "A B")
              name := some { familyName := some (.str "B"), givenName := some (.str "A")
                             middleName := "" }
              emails := some [{ value := some (.str "a@b.com") }]
              _raw := sampleV1Body
              _json := sampleV1Json } : Profile).emails = some [{ value := em }] ∧
      jsProp (some ({ provider := "dropbox"
                      id := some (.str "42")
                      displayName := some (.str "A B")
                      name := some { familyName := some (.str "B")
                                     givenName := some (.str "A"), middleName := "" }
                      emails := some [{ value := some (.str "a@b.com") }]
                      _raw := sampleV1Body
                      _json := sampleV1Json } : Profile)._json) "email" = .ok em) :=
  userProfile_success_invariants (JsVal.str "1")
    { buildAuthHeader := fun t => "Bearer " ++ t } (fun _ => .ok sampleV1Json)
    (fun _ => .ok sampleV1Body) "token" _ (Or.inl rfl) rfl

/-- C10: the constructor completes the caller-supplied options object
in place.  Whenever construction succeeds, the options object the
caller is left holding (which is the very object handed to the
`OAuth2Strategy` base constructor) has each of `authorizationURL`,
`tokenURL`, `scopeSeparator` and `customHeaders` overwritten with the
resolved version's default exactly when the caller-supplied value was
unset or otherwise falsy, and kept otherwise; no fresh configuration
record is introduced. -/
theorem construct_writes_options (opts : Options) (c : Construction)
    (h : Strategy.construct opts = .ok c) :
    ∃ d, defaultOptionsByApiVersion (jsToString c.strategy._apiVersion) = some d ∧
      c.optionsAfter =
        { opts with
          authorizationURL :=
            if jsTruthy opts.authorizationURL then opts.authorizationURL
            else .str d.authorizationURL
          tokenURL :=
            if jsTruthy opts.tokenURL then opts.tokenURL else .str d.tokenURL
          scopeSeparator :=
            if jsTruthy opts.scopeSeparator then opts.scopeSeparator
            else .str d.scopeSeparator
          customHeaders :=
            if jsTruthy opts.customHeaders then opts.customHeaders
            else .obj d.customHeaders } := by
  unfold Strategy.construct at h
  by_cases hg : (jsLooseNeqNull opts.apiVersion
      && !supportedApiVersions.contains (jsToString opts.apiVersion)) = true
  · rw [if_pos hg] at h
    exact Except.noConfusion h
  · rw [if_neg hg] at h
    dsimp only at h
    rcases hd : defaultOptionsByApiVersion
        (jsToString (if jsTruthy opts.apiVersion then opts.apiVersion else JsVal.str "1"))
      with _ | d
    · rw [hd] at h
      exact Except.noConfusion h
    · rw [hd] at h
      dsimp only at h
      injection h with h1
      subst h1
      exact ⟨d, hd, rfl⟩

/-- Witness for C10: constructing with an all-default options bag
leaves the caller's options object rewritten with the v1 defaults — in
particular, changed. -/
theorem construct_writes_options_witness :
    Strategy.construct emptyOptions = .ok defaultConstruction ∧
    (∃ d, defaultOptionsByApiVersion
        (jsToString defaultConstruction.strategy._apiVersion) = some d ∧
      defaultConstruction.optionsAfter =
        { emptyOptions with
          authorizationURL :=
            if jsTruthy emptyOptions.authorizationURL then emptyOptions.authorizationURL
            else .str d.authorizationURL
          tokenURL :=
            if jsTruthy emptyOptions.tokenURL then emptyOptions.tokenURL
            else .str d.tokenURL
          scopeSeparator :=
            if jsTruthy emptyOptions.scopeSeparator then emptyOptions.scopeSeparator
            else .str d.scopeSeparator
          customHeaders :=
            if jsTruthy emptyOptions.customHeaders then emptyOptions.customHeaders
            else .obj d.customHeaders }) ∧
    defaultConstruction.optionsAfter ≠ emptyOptions :=
  ⟨rfl, construct_writes_options emptyOptions defaultConstruction rfl, by decide⟩

end DropboxOAuth2
